import Mathlib

/-!
Shallow embedding of `actix-service/src/map.rs`: the `Map` response-mapping
combinator, its per-call adapter `MapFuture`, the factory-path combinator
`MapServiceFactory`, and its construction adapter `MapServiceFuture`.

Futures are embedded as explicit state machines: a future over state type `σ`
is a step function `σ → σ × Poll α` (one `poll` resumption: next state plus the
poll outcome). `FnMut` closures are embedded as state transformers
`σf → α → σf × β` (the closure's captured mutable state threaded explicitly).
The `Option<F>` single-use slot of `MapServiceFuture` is an `Option`, and its
`take().unwrap()` panic is modeled by an `Option`-valued poll step where `none`
is the panic.
-/

variable {σ σf σF σNF σA : Type} {Req Res Res2 Cfg : Type} {E IE : Type}
variable {α β ε ie : Type}

/-- Outcome of a single resumption of an asynchronous operation, mirroring
`std::task::Poll`. -/
inductive Poll (α : Type) : Type where
  | Pending : Poll α
  | Ready : α → Poll α
deriving DecidableEq

/-- A one-shot future as a state machine: one `poll` maps the current state to
the next state together with the poll outcome. -/
abbrev Fut (σ α : Type) : Type := σ → σ × Poll α

/-- State of a future after `n` polls (each poll may mutate the state). -/
def iterState (fut : Fut σ α) (s : σ) : Nat → σ
  | 0 => s
  | n + 1 => (fut (iterState fut s n)).1

/-- Outcome of poll number `n` (0-indexed) when the future is polled
repeatedly from state `s`. -/
def pollAt (fut : Fut σ α) (s : σ) (n : Nat) : Poll α :=
  (fut (iterState fut s n)).2

/-- The future, started in state `s`, resolves to `a` on poll number `n`:
every earlier poll reports `Pending` and poll `n` reports `Ready a`.
Under the one-shot contract the caller stops polling there. -/
def resolvesTo (fut : Fut σ α) (s : σ) (n : Nat) (a : α) : Prop :=
  (∀ k < n, pollAt fut s k = Poll.Pending) ∧ pollAt fut s n = Poll.Ready a

/-- The `Service` capability consumed and exposed by the combinator
(`src/actix-service/src/map.rs` uses the surrounding crate's `Service` trait):
a readiness check, a call producing the initial state of a response future,
and the step function of those response futures. Service state `σ`, response
future state `σF`. -/
structure Service (σ σF Req Res E : Type) : Type where
  poll_ready : σ → σ × Poll (Except E Unit)
  call : σ → Req → σ × σF
  futStep : Fut σF (Except E Res)

/-- The `ServiceFactory` capability: `new_service` takes `&self` (the factory
is not mutated) and a config, and returns the initial state of a construction
future whose step function resolves to a constructed service state. -/
structure ServiceFactory (Cfg σNF σ IE : Type) : Type where
  new_service : Cfg → σNF
  futStep : Fut σNF (Except IE σ)

/-- `Map::new(service, f)` (map.rs lines 19-29): the combinator's state is the
wrapped service's state paired with the closure's state. -/
def Map.new (service : σ) (f : σf) : σ × σf :=
  (service, f)

/-- `impl Clone for Map` (map.rs lines 32-44): clone the wrapped service and
the closure field-wise, given each component's clone operation. -/
def Map.clone (cloneService : σ → σ) (cloneF : σf → σf) (st : σ × σf) : σ × σf :=
  (cloneService st.1, cloneF st.2)

/-- `MapFuture::poll` (map.rs lines 92-100): poll the inner response future;
on `Ready(Ok(resp))` apply the closure and yield `Ready(Ok(f(resp)))` (the two
projections below are of the one application `f st.2 resp`); on
`Ready(Err(e))` pass the error through; on `Pending` stay pending. The
closure's state is touched only on the success branch. -/
def MapFuture.poll (fut : Fut σF (Except ε α)) (f : σf → α → σf × β) :
    Fut (σF × σf) (Except ε β) := fun st =>
  match fut st.1 with
  | (s', Poll.Ready (Except.ok resp)) =>
      ((s', (f st.2 resp).1), Poll.Ready (Except.ok (f st.2 resp).2))
  | (s', Poll.Ready (Except.error e)) => ((s', st.2), Poll.Ready (Except.error e))
  | (s', Poll.Pending) => ((s', st.2), Poll.Pending)

/-- `impl Service for Map` (map.rs lines 46-62): `poll_ready` delegates to the
wrapped service; `call` invokes the wrapped service and seeds a `MapFuture`
with the in-flight result and a clone of the closure (`self.f.clone()` — the
combinator keeps its own closure state, the future gets a duplicate). -/
def Map.serviceImpl (A : Service σ σF Req Res E) (f : σf → Res → σf × Res2) :
    Service (σ × σf) (σF × σf) Req Res2 E where
  poll_ready := fun st => (((A.poll_ready st.1).1, st.2), (A.poll_ready st.1).2)
  call := fun st req => (((A.call st.1 req).1, st.2), ((A.call st.1 req).2, st.2))
  futStep := MapFuture.poll A.futStep f

/-- `impl Clone for MapServiceFactory` (map.rs lines 125-137): field-wise
clone of the wrapped factory and the closure. -/
def MapServiceFactory.clone (cloneA : σA → σA) (cloneF : σf → σf) (st : σA × σf) :
    σA × σf :=
  (cloneA st.1, cloneF st.2)

/-- `MapServiceFactory::new_service` (map.rs lines 152-154):
`MapServiceFuture::new(self.a.new_service(cfg), self.f.clone())` — the
adapter's state is the inner construction future's initial state plus the
closure stored in a `Some` slot (map.rs lines 173-175). -/
def MapServiceFactory.new_service (Fa : ServiceFactory Cfg σNF σ IE) (sf : σf)
    (cfg : Cfg) : σNF × Option σf :=
  (Fa.new_service cfg, some sf)

/-- `MapServiceFuture::poll` (map.rs lines 185-193): poll the inner
construction future; the `?` operator returns `Ready(Err(e))` early on
failure, leaving the slot untouched; on `Ready(Ok(svc))` the closure is
extracted by `self.f.take().unwrap()` — extraction from an already-empty slot
panics, modeled here by `none`; on `Pending` stay pending with the slot
untouched. -/
def MapServiceFuture.poll (fut : Fut σNF (Except ie σ)) (st : σNF × Option σf) :
    Option ((σNF × Option σf) × Poll (Except ie (σ × σf))) :=
  match fut st.1 with
  | (s', Poll.Ready (Except.ok svc)) =>
      match st.2 with
      | some f => some ((s', none), Poll.Ready (Except.ok (Map.new svc f)))
      | none => none
  | (s', Poll.Ready (Except.error e)) => some ((s', st.2), Poll.Ready (Except.error e))
  | (s', Poll.Pending) => some ((s', st.2), Poll.Pending)

/-- State of a `MapServiceFuture` after `n` polls; `none` once a poll has
panicked on an empty slot. -/
def msfIter (fut : Fut σNF (Except ie σ)) (st : σNF × Option σf) :
    Nat → Option (σNF × Option σf)
  | 0 => some st
  | n + 1 =>
      (msfIter fut st n).bind fun s => ( MapServiceFuture.poll fut s).map Prod.fst

/-- Outcome of poll number `n` of a `MapServiceFuture`; `none` if that poll or
an earlier one panics. -/
def msfPollAt (fut : Fut σNF (Except ie σ)) (st : σNF × Option σf) (n : Nat) :
    Option (Poll (Except ie (σ × σf))) :=
  (msfIter fut st n).bind fun s => ( MapServiceFuture.poll fut s).map Prod.snd

/-- Instrument a pure closure with an invocation counter: each application
increments the count. Used to express "the closure is invoked exactly once". -/
def countF (f : α → β) : Nat → α → Nat × β := fun c a => (c + 1, f a)

/-- Success-transformation property of a `Map` state `st`: whenever the
wrapped service's response future resolves to `Ok v`, the `MapFuture` produced
by `Map`'s `call` resolves at the same poll to `Ok` of the closure applied to
`v`. -/
def MapCallSuccess (A : Service σ σF Req Res E) (f : σf → Res → σf × Res2)
    (st : σ × σf) : Prop :=
  ∀ (req : Req) (n : Nat) (v : Res),
    resolvesTo A.futStep (A.call st.1 req).2 n (Except.ok v) →
    resolvesTo (MapFuture.poll A.futStep f) ((Map.serviceImpl A f).call st req).2 n
      (Except.ok (f st.2 v).2)

/-- Error pass-through property of a `Map` state `st`: whenever the wrapped
service's response future resolves to `Err e`, the `MapFuture` produced by
`Map`'s `call` resolves at the same poll to the same `Err e`. -/
def MapCallError (A : Service σ σF Req Res E) (f : σf → Res → σf × Res2)
    (st : σ × σf) : Prop :=
  ∀ (req : Req) (n : Nat) (e : E),
    resolvesTo A.futStep (A.call st.1 req).2 n (Except.error e) →
    resolvesTo (MapFuture.poll A.futStep f) ((Map.serviceImpl A f).call st req).2 n
      (Except.error e)

/-- Concrete response future for witnesses: counts down `s` polls reporting
`Pending`, then resolves to `Ok 5`. -/
def demoFutOk : Fut Nat (Except Nat Nat) := fun s =>
  if s = 0 then (0, Poll.Ready (Except.ok 5)) else (s - 1, Poll.Pending)

/-- Concrete response future for witnesses: counts down `s` polls reporting
`Pending`, then resolves to `Err 9`. -/
def demoFutErr : Fut Nat (Except Nat Nat) := fun s =>
  if s = 0 then (0, Poll.Ready (Except.error 9)) else (s - 1, Poll.Pending)

/-- Concrete service for witnesses: always ready; a call with request `req`
starts a response future in state `req` (so it pends `req` polls before
resolving to `Ok 5`). -/
def demoService : Service Nat Nat Nat Nat Nat where
  poll_ready := fun s => (s, Poll.Ready (Except.ok ()))
  call := fun s req => (s + 1, req)
  futStep := demoFutOk

/-- Concrete service for witnesses whose response futures resolve to
`Err 9` after `req` pending polls. -/
def demoServiceErr : Service Nat Nat Nat Nat Nat where
  poll_ready := fun s => (s, Poll.Ready (Except.ok ()))
  call := fun s req => (s + 1, req)
  futStep := demoFutErr

/-- Concrete stateful closure for witnesses: doubles the response and bumps
its private counter. -/
def demoF : Nat → Nat → Nat × Nat := fun c v => (c + 1, 2 * v)

/-- Concrete factory for witnesses: construction from config `cfg` pends
`cfg` polls, then resolves to a service in state `0`. -/
def demoFactory : ServiceFactory Nat Nat Nat Nat where
  new_service := fun cfg => cfg
  futStep := fun s => if s = 0 then (0, Poll.Ready (Except.ok 0)) else (s - 1, Poll.Pending)

/-- Concrete factory for witnesses whose construction fails with
`InitError` `7` after `cfg` pending polls. -/
def demoFactoryErr : ServiceFactory Nat Nat Nat Nat where
  new_service := fun cfg => cfg
  futStep := fun s => if s = 0 then (0, Poll.Ready (Except.error 7)) else (s - 1, Poll.Pending)

deriving instance DecidableEq for Except

theorem mapFuture_iter_eq (fut : Fut σF (Except ε α)) (f : σf → α → σf × β)
    (s : σF) (sf : σf) (n : Nat)
    (hp : ∀ k < n, pollAt fut s k = Poll.Pending) :
    ∀ k, k ≤ n → iterState (MapFuture.poll fut f) (s, sf) k = (iterState fut s k, sf) := by
  intro k
  induction k with
  | zero => intro _; rfl
  | succ k ih =>
    intro hk
    have hik := ih (Nat.le_of_succ_le hk)
    have hpk := hp k (Nat.lt_of_succ_le hk)
    unfold pollAt at hpk
    have hstep : fut (iterState fut s k) = ((fut (iterState fut s k)).1, Poll.Pending) := by
      rw [← hpk]
    show (MapFuture.poll fut f (iterState (MapFuture.poll fut f) (s, sf) k)).1
        = ((fut (iterState fut s k)).1, sf)
    rw [hik]
    unfold MapFuture.poll
    rw [hstep]

theorem mapFuture_resolves_ok (fut : Fut σF (Except ε α)) (f : σf → α → σf × β)
    (s : σF) (sf : σf) (n : Nat) (v : α)
    (h : resolvesTo fut s n (Except.ok v)) :
    resolvesTo (MapFuture.poll fut f) (s, sf) n (Except.ok (f sf v).2) := by
  obtain ⟨hp, hr⟩ := h
  unfold pollAt at hr
  constructor
  · intro k hk
    have hik := mapFuture_iter_eq fut f s sf n hp k (Nat.le_of_lt hk)
    have hpk := hp k hk
    unfold pollAt at hpk
    have hstep : fut (iterState fut s k) = ((fut (iterState fut s k)).1, Poll.Pending) := by
      rw [← hpk]
    unfold pollAt
    rw [hik]
    unfold MapFuture.poll
    rw [hstep]
  · have hik := mapFuture_iter_eq fut f s sf n hp n (Nat.le_refl n)
    have hstep : fut (iterState fut s n)
        = ((fut (iterState fut s n)).1, Poll.Ready (Except.ok v)) := by
      rw [← hr]
    unfold pollAt
    rw [hik]
    unfold MapFuture.poll
    rw [hstep]

theorem mapFuture_resolves_err (fut : Fut σF (Except ε α)) (f : σf → α → σf × β)
    (s : σF) (sf : σf) (n : Nat) (e : ε)
    (h : resolvesTo fut s n (Except.error e)) :
    resolvesTo (MapFuture.poll fut f) (s, sf) n (Except.error e) := by
  obtain ⟨hp, hr⟩ := h
  unfold pollAt at hr
  constructor
  · intro k hk
    have hik := mapFuture_iter_eq fut f s sf n hp k (Nat.le_of_lt hk)
    have hpk := hp k hk
    unfold pollAt at hpk
    have hstep : fut (iterState fut s k) = ((fut (iterState fut s k)).1, Poll.Pending) := by
      rw [← hpk]
    unfold pollAt
    rw [hik]
    unfold MapFuture.poll
    rw [hstep]
  · have hik := mapFuture_iter_eq fut f s sf n hp n (Nat.le_refl n)
    have hstep : fut (iterState fut s n)
        = ((fut (iterState fut s n)).1, Poll.Ready (Except.error e)) := by
      rw [← hr]
    unfold pollAt
    rw [hik]
    unfold MapFuture.poll
    rw [hstep]

theorem mapFuture_fstate_final (fut : Fut σF (Except ε α)) (f : σf → α → σf × β)
    (s : σF) (sf : σf) (n : Nat) (r : Except ε α)
    (h : resolvesTo fut s n r) :
    (iterState (MapFuture.poll fut f) (s, sf) (n + 1)).2
      = match r with
        | Except.ok v => (f sf v).1
        | Except.error _ => sf := by
  obtain ⟨hp, hr⟩ := h
  unfold pollAt at hr
  have hik := mapFuture_iter_eq fut f s sf n hp n (Nat.le_refl n)
  show (MapFuture.poll fut f (iterState (MapFuture.poll fut f) (s, sf) n)).1.2 = _
  rw [hik]
  cases r with
  | ok v =>
    have hstep : fut (iterState fut s n)
        = ((fut (iterState fut s n)).1, Poll.Ready (Except.ok v)) := by rw [← hr]
    unfold MapFuture.poll
    rw [hstep]
  | error e =>
    have hstep : fut (iterState fut s n)
        = ((fut (iterState fut s n)).1, Poll.Ready (Except.error e)) := by rw [← hr]
    unfold MapFuture.poll
    rw [hstep]

theorem msfIter_eq (fut : Fut σNF (Except ie σ)) (s0 : σNF) (sf : σf) (n : Nat)
    (hp : ∀ k < n, pollAt fut s0 k = Poll.Pending) :
    ∀ k, k ≤ n → msfIter fut (s0, some sf) k = some (iterState fut s0 k, some sf) := by
  intro k
  induction k with
  | zero => intro _; rfl
  | succ k ih =>
    intro hk
    have hik := ih (Nat.le_of_succ_le hk)
    have hpk := hp k (Nat.lt_of_succ_le hk)
    unfold pollAt at hpk
    have hstep : fut (iterState fut s0 k)
        = ((fut (iterState fut s0 k)).1, Poll.Pending) := by
      rw [← hpk]
    show (msfIter fut (s0, some sf) k).bind
        (fun s => (MapServiceFuture.poll fut s).map Prod.fst)
        = some (iterState fut s0 (k + 1), some sf)
    rw [hik]
    show (MapServiceFuture.poll fut (iterState fut s0 k, some sf)).map Prod.fst
        = some (iterState fut s0 (k + 1), some sf)
    unfold MapServiceFuture.poll
    rw [hstep]
    rfl

theorem msfPollAt_pending (fut : Fut σNF (Except ie σ)) (s0 : σNF) (sf : σf)
    (n : Nat) (hp : ∀ k < n, pollAt fut s0 k = Poll.Pending) :
    ∀ k < n, msfPollAt fut (s0, some sf) k = some Poll.Pending := by
  intro k hk
  have hik := msfIter_eq fut s0 sf n hp k (Nat.le_of_lt hk)
  have hpk := hp k hk
  unfold pollAt at hpk
  have hstep : fut (iterState fut s0 k)
      = ((fut (iterState fut s0 k)).1, Poll.Pending) := by
    rw [← hpk]
  unfold msfPollAt
  rw [hik]
  show (MapServiceFuture.poll fut (iterState fut s0 k, some sf)).map Prod.snd
      = some Poll.Pending
  unfold MapServiceFuture.poll
  rw [hstep]
  rfl

theorem msfPollAt_ok (fut : Fut σNF (Except ie σ)) (s0 : σNF) (sf : σf)
    (n : Nat) (svc : σ) (h : resolvesTo fut s0 n (Except.ok svc)) :
    msfPollAt fut (s0, some sf) n = some (Poll.Ready (Except.ok (Map.new svc sf))) := by
  obtain ⟨hp, hr⟩ := h
  unfold pollAt at hr
  have hik := msfIter_eq fut s0 sf n hp n (Nat.le_refl n)
  have hstep : fut (iterState fut s0 n)
      = ((fut (iterState fut s0 n)).1, Poll.Ready (Except.ok svc)) := by
    rw [← hr]
  unfold msfPollAt
  rw [hik]
  show (MapServiceFuture.poll fut (iterState fut s0 n, some sf)).map Prod.snd = _
  unfold MapServiceFuture.poll
  rw [hstep]
  rfl

theorem msfPollAt_err (fut : Fut σNF (Except ie σ)) (s0 : σNF) (sf : σf)
    (n : Nat) (e : ie) (h : resolvesTo fut s0 n (Except.error e)) :
    msfPollAt fut (s0, some sf) n
      = some (Poll.Ready (Except.error e) : Poll (Except ie (σ × σf))) := by
  obtain ⟨hp, hr⟩ := h
  unfold pollAt at hr
  have hik := msfIter_eq fut s0 sf n hp n (Nat.le_refl n)
  have hstep : fut (iterState fut s0 n)
      = ((fut (iterState fut s0 n)).1, Poll.Ready (Except.error e)) := by
    rw [← hr]
  unfold msfPollAt
  rw [hik]
  show (MapServiceFuture.poll fut (iterState fut s0 n, some sf)).map Prod.snd = _
  unfold MapServiceFuture.poll
  rw [hstep]
  rfl

/-- C1 -/
theorem map_call_success_transforms (A : Service σ σF Req Res E)
    (f : σf → Res → σf × Res2) (st : σ × σf) (req : Req) (n : Nat) (v : Res)
    (h : resolvesTo A.futStep (A.call st.1 req).2 n (Except.ok v)) :
    resolvesTo (MapFuture.poll A.futStep f) ((Map.serviceImpl A f).call st req).2 n
      (Except.ok (f st.2 v).2) :=
  mapFuture_resolves_ok A.futStep f (A.call st.1 req).2 st.2 n v h

/-- C1 witness -/
theorem map_call_success_transforms_witness :
    resolvesTo demoService.futStep (demoService.call 0 2).2 2 (Except.ok 5) ∧
    resolvesTo (MapFuture.poll demoService.futStep demoF)
      ((Map.serviceImpl demoService demoF).call (0, 3) 2).2 2
      (Except.ok (demoF 3 5).2) :=
  ⟨by unfold resolvesTo pollAt; decide,
   map_call_success_transforms demoService demoF (0, 3) 2 2 5
     (by unfold resolvesTo pollAt; decide)⟩

/-- C2 -/
theorem map_call_error_passthrough (A : Service σ σF Req Res E)
    (f : σf → Res → σf × Res2) (st : σ × σf) (req : Req) (n : Nat) (e : E)
    (h : resolvesTo A.futStep (A.call st.1 req).2 n (Except.error e)) :
    resolvesTo (MapFuture.poll A.futStep f) ((Map.serviceImpl A f).call st req).2 n
      (Except.error e) ∧
    ∀ k ≤ n + 1,
      (iterState (MapFuture.poll A.futStep f)
        ((Map.serviceImpl A f).call st req).2 k).2 = st.2 := by
  constructor
  · exact mapFuture_resolves_err A.futStep f (A.call st.1 req).2 st.2 n e h
  · intro k hk
    show (iterState (MapFuture.poll A.futStep f) ((A.call st.1 req).2, st.2) k).2 = st.2
    rcases Nat.lt_succ_iff_lt_or_eq.mp (Nat.lt_succ_of_le hk) with hlt | heq
    · have hik := mapFuture_iter_eq A.futStep f (A.call st.1 req).2 st.2 n h.1 k
        (Nat.lt_succ_iff.mp hlt)
      rw [hik]
    · subst heq
      have hfin := mapFuture_fstate_final A.futStep f (A.call st.1 req).2 st.2 n
        (Except.error e) h
      exact hfin

/-- C2 witness -/
theorem map_call_error_passthrough_witness :
    resolvesTo demoServiceErr.futStep (demoServiceErr.call 0 2).2 2 (Except.error 9) ∧
    (resolvesTo (MapFuture.poll demoServiceErr.futStep demoF)
      ((Map.serviceImpl demoServiceErr demoF).call (0, 3) 2).2 2 (Except.error 9) ∧
    ∀ k ≤ 3,
      (iterState (MapFuture.poll demoServiceErr.futStep demoF)
        ((Map.serviceImpl demoServiceErr demoF).call (0, 3) 2).2 k).2 = 3) :=
  ⟨by unfold resolvesTo pollAt; decide,
   map_call_error_passthrough demoServiceErr demoF (0, 3) 2 2 9
     (by unfold resolvesTo pollAt; decide)⟩

/-- C3 -/
theorem map_poll_ready_passthrough (A : Service σ σF Req Res E)
    (f : σf → Res → σf × Res2) (st : σ × σf) :
    ((Map.serviceImpl A f).poll_ready st).2 = (A.poll_ready st.1).2 ∧
    ((Map.serviceImpl A f).poll_ready st).1 = ((A.poll_ready st.1).1, st.2) :=
  ⟨rfl, rfl⟩

/-- C4 -/
theorem mapServiceFactory_construct_ok (Fa : ServiceFactory Cfg σNF σ IE)
    (A : Service σ σF Req Res E) (f : σf → Res → σf × Res2) (sf : σf) (cfg : Cfg)
    (n : Nat) (svc : σ)
    (h : resolvesTo Fa.futStep (Fa.new_service cfg) n (Except.ok svc)) :
    (∀ k < n, msfPollAt Fa.futStep (MapServiceFactory.new_service Fa sf cfg) k
        = some Poll.Pending) ∧
    msfPollAt Fa.futStep (MapServiceFactory.new_service Fa sf cfg) n
      = some (Poll.Ready (Except.ok (Map.new svc sf))) ∧
    MapCallSuccess A f (Map.new svc sf) ∧ MapCallError A f (Map.new svc sf) := by
  refine ⟨?_, ?_, ?_, ?_⟩
  · exact msfPollAt_pending Fa.futStep (Fa.new_service cfg) sf n h.1
  · exact msfPollAt_ok Fa.futStep (Fa.new_service cfg) sf n svc h
  · intro req m v hv
    exact mapFuture_resolves_ok A.futStep f (A.call svc req).2 sf m v hv
  · intro req m e he
    exact mapFuture_resolves_err A.futStep f (A.call svc req).2 sf m e he

/-- C4 witness -/
theorem mapServiceFactory_construct_ok_witness :
    resolvesTo demoFactory.futStep (demoFactory.new_service 1) 1 (Except.ok 0) ∧
    ((∀ k < 1, msfPollAt demoFactory.futStep
        (MapServiceFactory.new_service demoFactory 3 1) k = some Poll.Pending) ∧
    msfPollAt demoFactory.futStep (MapServiceFactory.new_service demoFactory 3 1) 1
      = some (Poll.Ready (Except.ok (Map.new 0 3))) ∧
    MapCallSuccess demoService demoF (Map.new 0 3) ∧
    MapCallError demoService demoF (Map.new 0 3)) :=
  ⟨by unfold resolvesTo pollAt; decide,
   mapServiceFactory_construct_ok demoFactory demoService demoF 3 1 1 0
     (by unfold resolvesTo pollAt; decide)⟩

/-- C5 -/
theorem mapServiceFactory_construct_err (Fa : ServiceFactory Cfg σNF σ IE)
    (sf : σf) (cfg : Cfg) (n : Nat) (e : IE)
    (h : resolvesTo Fa.futStep (Fa.new_service cfg) n (Except.error e)) :
    (∀ k < n, msfPollAt Fa.futStep (MapServiceFactory.new_service Fa sf cfg) k
        = some Poll.Pending) ∧
    msfPollAt Fa.futStep (MapServiceFactory.new_service Fa sf cfg) n
      = some (Poll.Ready (Except.error e) : Poll (Except IE (σ × σf))) :=
  ⟨msfPollAt_pending Fa.futStep (Fa.new_service cfg) sf n h.1,
   msfPollAt_err Fa.futStep (Fa.new_service cfg) sf n e h⟩

/-- C5 witness -/
theorem mapServiceFactory_construct_err_witness :
    resolvesTo demoFactoryErr.futStep (demoFactoryErr.new_service 1) 1 (Except.error 7) ∧
    ((∀ k < 1, msfPollAt demoFactoryErr.futStep
        (MapServiceFactory.new_service demoFactoryErr (3 : Nat) 1) k = some Poll.Pending) ∧
    msfPollAt demoFactoryErr.futStep
        (MapServiceFactory.new_service demoFactoryErr (3 : Nat) 1) 1
      = some (Poll.Ready (Except.error 7) : Poll (Except Nat (Nat × Nat)))) :=
  ⟨by unfold resolvesTo pollAt; decide,
   mapServiceFactory_construct_err demoFactoryErr 3 1 1 7
     (by unfold resolvesTo pollAt; decide)⟩

/-- C6 -/
theorem map_call_single_application (A : Service σ σF Req Res E) (f : Res → Res2)
    (s : σ) (c0 : Nat) (req : Req) (n : Nat) (r : Except E Res)
    (h : resolvesTo A.futStep (A.call s req).2 n r) :
    (∀ k ≤ n,
      (iterState (MapFuture.poll A.futStep (countF f))
        ((Map.serviceImpl A (countF f)).call (s, c0) req).2 k).2 = c0) ∧
    (iterState (MapFuture.poll A.futStep (countF f))
        ((Map.serviceImpl A (countF f)).call (s, c0) req).2 (n + 1)).2
      = match r with
        | Except.ok _ => c0 + 1
        | Except.error _ => c0 := by
  constructor
  · intro k hk
    have hik := mapFuture_iter_eq A.futStep (countF f) (A.call s req).2 c0 n h.1 k hk
    show (iterState (MapFuture.poll A.futStep (countF f)) ((A.call s req).2, c0) k).2 = c0
    rw [hik]
  · have hfin := mapFuture_fstate_final A.futStep (countF f) (A.call s req).2 c0 n r h
    show (iterState (MapFuture.poll A.futStep (countF f)) ((A.call s req).2, c0) (n + 1)).2 = _
    rw [hfin]
    cases r <;> rfl

/-- C6 witness -/
theorem map_call_single_application_witness :
    resolvesTo demoService.futStep (demoService.call 0 2).2 2 (Except.ok 5) ∧
    ((∀ k ≤ 2,
      (iterState (MapFuture.poll demoService.futStep (countF (fun v => 2 * v)))
        ((Map.serviceImpl demoService (countF (fun v => 2 * v))).call (0, 0) 2).2 k).2 = 0) ∧
    (iterState (MapFuture.poll demoService.futStep (countF (fun v => 2 * v)))
        ((Map.serviceImpl demoService (countF (fun v => 2 * v))).call (0, 0) 2).2 3).2 = 1) :=
  ⟨by unfold resolvesTo pollAt; decide,
   map_call_single_application demoService (fun v => 2 * v) 0 0 2 2 (Except.ok 5)
     (by unfold resolvesTo pollAt; decide)⟩

/-- C7 -/
theorem msf_slot_present_no_panic (Fa : ServiceFactory Cfg σNF σ IE) (sf : σf)
    (cfg : Cfg) (n : Nat) (svc : σ)
    (h : resolvesTo Fa.futStep (Fa.new_service cfg) n (Except.ok svc)) :
    (∀ k ≤ n, msfIter Fa.futStep (MapServiceFactory.new_service Fa sf cfg) k
        = some (iterState Fa.futStep (Fa.new_service cfg) k, some sf)) ∧
    msfPollAt Fa.futStep (MapServiceFactory.new_service Fa sf cfg) n
      = some (Poll.Ready (Except.ok (Map.new svc sf))) ∧
    msfIter Fa.futStep (MapServiceFactory.new_service Fa sf cfg) (n + 1)
      = some ((Fa.futStep (iterState Fa.futStep (Fa.new_service cfg) n)).1, none) := by
  refine ⟨?_, ?_, ?_⟩
  · intro k hk
    exact msfIter_eq Fa.futStep (Fa.new_service cfg) sf n h.1 k hk
  · exact msfPollAt_ok Fa.futStep (Fa.new_service cfg) sf n svc h
  · have hik := msfIter_eq Fa.futStep (Fa.new_service cfg) sf n h.1 n (Nat.le_refl n)
    have hr := h.2
    unfold pollAt at hr
    have hstep : Fa.futStep (iterState Fa.futStep (Fa.new_service cfg) n)
        = ((Fa.futStep (iterState Fa.futStep (Fa.new_service cfg) n)).1,
           Poll.Ready (Except.ok svc)) := by
      rw [← hr]
    show (msfIter Fa.futStep (Fa.new_service cfg, some sf) n).bind
        (fun s => (MapServiceFuture.poll Fa.futStep s).map Prod.fst) = _
    rw [hik]
    show (MapServiceFuture.poll Fa.futStep
        (iterState Fa.futStep (Fa.new_service cfg) n, some sf)).map Prod.fst = _
    unfold MapServiceFuture.poll
    rw [hstep]
    rfl

/-- C7 witness -/
theorem msf_slot_present_no_panic_witness :
    resolvesTo demoFactory.futStep (demoFactory.new_service 1) 1 (Except.ok 0) ∧
    ((∀ k ≤ 1, msfIter demoFactory.futStep
        (MapServiceFactory.new_service demoFactory 3 1) k
        = some (iterState demoFactory.futStep (demoFactory.new_service 1) k, some 3)) ∧
    msfPollAt demoFactory.futStep (MapServiceFactory.new_service demoFactory 3 1) 1
      = some (Poll.Ready (Except.ok (Map.new 0 3))) ∧
    msfIter demoFactory.futStep (MapServiceFactory.new_service demoFactory 3 1) 2
      = some ((demoFactory.futStep
          (iterState demoFactory.futStep (demoFactory.new_service 1) 1)).1, none)) :=
  ⟨by unfold resolvesTo pollAt; decide,
   msf_slot_present_no_panic demoFactory 3 1 1 0
     (by unfold resolvesTo pollAt; decide)⟩

/-- C8 -/
theorem adapters_pending_ordering (fut : Fut σF (Except ε α)) (f : σf → α → σf × β)
    (st : σF × σf) (s' : σF) (v : α)
    (fut2 : Fut σNF (Except ie σ)) (st2 : σNF × Option σf) (s2 : σNF) (svc : σ)
    (g : σf) :
    (fut st.1 = (s', Poll.Pending) →
      MapFuture.poll fut f st = ((s', st.2), Poll.Pending)) ∧
    (fut st.1 = (s', Poll.Ready (Except.ok v)) →
      MapFuture.poll fut f st
        = ((s', (f st.2 v).1), Poll.Ready (Except.ok (f st.2 v).2))) ∧
    (fut2 st2.1 = (s2, Poll.Pending) →
      MapServiceFuture.poll fut2 st2 = some ((s2, st2.2), Poll.Pending)) ∧
    (st2.2 = some g → fut2 st2.1 = (s2, Poll.Ready (Except.ok svc)) →
      MapServiceFuture.poll fut2 st2
        = some ((s2, none), Poll.Ready (Except.ok (Map.new svc g)))) := by
  refine ⟨?_, ?_, ?_, ?_⟩
  · intro h1
    unfold MapFuture.poll
    rw [h1]
  · intro h1
    unfold MapFuture.poll
    rw [h1]
  · intro h1
    unfold MapServiceFuture.poll
    rw [h1]
  · intro h1 h2
    unfold MapServiceFuture.poll
    rw [h2, h1]

/-- C8 witness -/
theorem adapters_pending_ordering_witness :
    MapFuture.poll demoFutOk demoF (2, 3) = ((1, 3), Poll.Pending) ∧
    MapFuture.poll demoFutOk demoF (0, 3)
      = ((0, (demoF 3 5).1), Poll.Ready (Except.ok (demoF 3 5).2)) ∧
    MapServiceFuture.poll demoFactory.futStep ((2 : Nat), some (3 : Nat))
      = some ((1, some 3), Poll.Pending) ∧
    MapServiceFuture.poll demoFactory.futStep ((0 : Nat), some (3 : Nat))
      = some ((0, none), Poll.Ready (Except.ok (Map.new 0 3))) :=
  ⟨(adapters_pending_ordering demoFutOk demoF (2, 3) 1 5 demoFactory.futStep
      (2, some 3) 1 0 3).1 (by decide),
   (adapters_pending_ordering demoFutOk demoF (0, 3) 0 5 demoFactory.futStep
      (0, some 3) 0 0 3).2.1 (by decide),
   (adapters_pending_ordering demoFutOk demoF (2, 3) 1 5 demoFactory.futStep
      (2, some 3) 1 0 3).2.2.1 (by decide),
   (adapters_pending_ordering demoFutOk demoF (0, 3) 0 5 demoFactory.futStep
      (0, some 3) 0 0 3).2.2.2 (by decide) (by decide)⟩

/-- C9 -/
theorem map_clone_componentwise {τ : Type} (cloneService : σ → σ) (cloneF : σf → σf)
    (st : σ × σf) (cloneA : σA → σA) (cloneG : τ → τ) (st2 : σA × τ) :
    Map.clone cloneService cloneF st = Map.new (cloneService st.1) (cloneF st.2) ∧
    MapServiceFactory.clone cloneA cloneG st2 = (cloneA st2.1, cloneG st2.2) :=
  ⟨rfl, rfl⟩

/-- C10 -/
theorem msf_error_slot_untouched (fut : Fut σNF (Except ie σ)) (st : σNF × Option σf)
    (s' : σNF) (e : ie) (h : fut st.1 = (s', Poll.Ready (Except.error e))) :
    MapServiceFuture.poll fut st = some ((s', st.2), Poll.Ready (Except.error e)) := by
  unfold MapServiceFuture.poll
  rw [h]

/-- C10 witness -/
theorem msf_error_slot_untouched_witness :
    demoFactoryErr.futStep 0 = ((0 : Nat), Poll.Ready (Except.error 7)) ∧
    MapServiceFuture.poll demoFactoryErr.futStep ((0 : Nat), some (3 : Nat))
      = some ((0, some 3), Poll.Ready (Except.error 7)) :=
  ⟨by decide,
   msf_error_slot_untouched demoFactoryErr.futStep (0, some 3) 0 7 (by decide)⟩
